import Mathlib

/-!
Shallow embedding of the fambot-go Slack bot (internal/handlers/slack.go,
internal/database/database.go, internal/models/models.go) and proofs about it.

Strings are modelled as Lean `String`/`List Char`; SQLite tables as Lean lists
of rows; machine integers as `Int`. External effects (Slack profile lookup,
channel resolution, `ORDER BY RANDOM()` row selection) are modelled as oracle
functions carried in an environment record. Regular-expression matching is
translated by hand from the two concrete patterns in the source, using the
ASCII word-character and whitespace classes of RE2.
-/

namespace Fambot

/-! ## Data model (internal/models/models.go) -/

/-- A row of the `users` table. -/
structure User where
  id : String
  username : String
  realName : String
  email : String
deriving DecidableEq, Repr

/-- A row of the `karma` table (the `id` autoincrement column and
`updated_at` timestamp are omitted: no modelled behavior reads them). -/
structure Karma where
  userID : String
  username : String
  score : Int
deriving DecidableEq, Repr

/-- A row of the `karma_log` table (autoincrement id and timestamp omitted). -/
structure KarmaLog where
  userID : String
  givenBy : String
  reason : String
  change : Int
  channel : String
deriving DecidableEq, Repr

/-- A row of the `birthdays` table (autoincrement id omitted). -/
structure Birthday where
  userID : String
  username : String
  month : Int
  day : Int
  year : Int
  timezone : String
deriving DecidableEq, Repr

/-- A row of the `sassy_responses` table (autoincrement id omitted). -/
structure SassyResponse where
  response : String
  category : String
  active : Bool
deriving DecidableEq, Repr

/-- The persistent store: the tables touched by the verified handlers.
The `anniversaries` table is omitted: no claim under verification reads it. -/
structure DB where
  users : List User
  karma : List Karma
  karmaLog : List KarmaLog
  birthdays : List Birthday
  sassyResponses : List SassyResponse
deriving DecidableEq, Repr

/-- The empty database produced by `createTables` on a fresh file. -/
def emptyDB : DB := ⟨[], [], [], [], []⟩

/-- A Slack user profile as returned by `client.GetUserInfo`. -/
structure UserInfo where
  id : String
  name : String
  realName : String
  email : String
deriving DecidableEq, Repr

/-- An outbound `chat.postMessage` call: channel, optional thread timestamp
(present for `sendThreadedMessage`, absent for `sendMessage`), text. -/
structure OutMsg where
  channel : String
  threadTS : Option String
  text : String
deriving DecidableEq, Repr

/-- The fields of a `slackevents.MessageEvent` read by the handlers. -/
structure MessageEvent where
  user : String
  text : String
  channel : String
  timeStamp : String
deriving DecidableEq, Repr

/-- Handler configuration plus oracles for the external Slack API:
`lookup` models `client.GetUserInfo` (`none` = error), `sassyPick` models
`GetRandomSassyResponse` (random row choice, `none` = `sql.ErrNoRows`),
`resolveChannel` models the channel-list search in `getChannelIDByName`. -/
structure Env where
  botID : String
  peopleChannel : String
  gratefulChannel : String
  lookup : String → Option UserInfo
  sassyPick : String → Option SassyResponse
  resolveChannel : String → Option String

/-! ## Character classes and low-level string helpers -/

/-- RE2 ASCII word character `\w` = `[0-9A-Za-z_]`, used by `\b`. -/
def isWordChar (c : Char) : Bool :=
  c.isAlpha || c.isDigit || c = '_'

/-- RE2 whitespace class `\s` = `[\t\n\f\r ]`. -/
def isRegexSpace (c : Char) : Bool :=
  c = ' ' || c = '\t' || c = '\n' || c = '\x0c' || c = '\r'

/-- ASCII whitespace recognized by Go `strings.TrimSpace` (the inputs under
verification are ASCII, so the Unicode cases of `unicode.IsSpace` are moot). -/
def isTrimSpace (c : Char) : Bool :=
  c = ' ' || c = '\t' || c = '\n' || c = '\x0b' || c = '\x0c' || c = '\r'

/-- Character class `[A-Z0-9]` of the mention patterns. -/
def isIdChar (c : Char) : Bool :=
  c.isUpper || c.isDigit

/-- `strings.TrimSpace` on the character list. -/
def trimSpaces (l : List Char) : List Char :=
  ((l.dropWhile isTrimSpace).reverse.dropWhile isTrimSpace).reverse

/-- `strings.Split s "/"`: split at every `/`, keeping empty fields. -/
def splitOnSlash : List Char → List (List Char)
  | [] => [[]]
  | c :: rest =>
    if c = '/' then [] :: splitOnSlash rest
    else
      match splitOnSlash rest with
      | [] => [[c]]
      | g :: gs => (c :: g) :: gs

/-- Numeric value of a digit list (most significant first). -/
def digitsToNat (l : List Char) : Nat :=
  l.foldl (fun acc c => acc * 10 + (c.toNat - 48)) 0

/-- All-digit check plus nonemptiness, the body of a Go `strconv.Atoi` call. -/
def natPart (l : List Char) : Option Nat :=
  if l ≠ [] ∧ l.all Char.isDigit then some (digitsToNat l) else none

/-- `strconv.Atoi`: optional sign then one or more ASCII digits (the overflow
check is dropped: all verified inputs are far below the int64 bound). -/
def atoi : List Char → Option Int
  | [] => none
  | c :: rest =>
    if c = '+' then (natPart rest).map Int.ofNat
    else if c = '-' then (natPart rest).map (fun n => -(n : Int))
    else (natPart (c :: rest)).map Int.ofNat

/-- Left-pad to two digits, the `%02d` verb for the in-range values used. -/
def pad2 (n : Int) : String :=
  if 0 ≤ n ∧ n < 10 then "0" ++ toString n else toString n

/-- `strings.Replace(ts, ".", "", 1)`: delete the first dot. -/
def removeFirstDot : List Char → List Char
  | [] => []
  | c :: rest => if c = '.' then rest else c :: removeFirstDot rest

/-! ## The gratitude regex `(?i)\b(thank\s*(you|u)|thanks|thx|ty)\b`

The matcher works on the lowercased character list. At each position that is
preceded by a word boundary it tries each alternative of the union; an
alternative accepts when its literal part matches and the remainder starts
with a non-word character (or the string ends). The `\s*` of `thank\s*(you|u)`
is consumed greedily, which is exhaustive because neither `y` nor `u` is a
whitespace character. -/

/-- Match a literal character sequence, returning the remainder. -/
def matchLit : List Char → List Char → Option (List Char)
  | [], s => some s
  | _ :: _, [] => none
  | c :: cs, x :: xs => if x = c then matchLit cs xs else none

/-- RE2 `\b` after a match: next character is non-word, or end of input. -/
def boundaryAfter : List Char → Bool
  | [] => true
  | c :: _ => !isWordChar c

/-- One alternative: literal word followed by a word boundary. -/
def wordAlt (w : List Char) (s : List Char) : Bool :=
  match matchLit w s with
  | some r => boundaryAfter r
  | none => false

/-- `thank\s*(you|u)` followed by a word boundary. -/
def thankAlt (s : List Char) : Bool :=
  match matchLit ['t', 'h', 'a', 'n', 'k'] s with
  | some r =>
    let r2 := r.dropWhile isRegexSpace
    wordAlt ['y', 'o', 'u'] r2 || wordAlt ['u'] r2
  | none => false

/-- Any alternative of the union matches at this position. -/
def thankAltsAt (s : List Char) : Bool :=
  thankAlt s || wordAlt ['t', 'h', 'a', 'n', 'k', 's'] s ||
    wordAlt ['t', 'h', 'x'] s || wordAlt ['t', 'y'] s

/-- Scan every position; `atBoundary` records whether the previous character
was a non-word character (true at the start of the text). -/
def thankScan : List Char → Bool → Bool
  | [], _ => false
  | c :: rest, atBoundary =>
    (atBoundary && thankAltsAt (c :: rest)) || thankScan rest (!isWordChar c)

/-- `thankYouRegex.MatchString`: case-insensitive via lowercasing. -/
def thankYouRegexMatch (s : String) : Bool :=
  thankScan (s.data.map Char.toLower) true

/-! ## The mention extractors

`karmaRegex = <@([A-Z0-9]+)>\s*\+\+` and the plain mention pattern
`<@([A-Z0-9]+)>`. `FindAllStringSubmatch` semantics: try a match at each
position left to right; on success emit the captured identifier and continue
after the match (non-overlapping), on failure advance one character. The
scanners take a fuel argument, initialized to one more than the text length;
each recursive call strictly shrinks the unscanned list, so that initial fuel
is never exhausted. -/

/-- Try `<@([A-Z0-9]+)>\s*\+\+` at the head of the list; on success return
the capture group and the remainder after the match. -/
def tryKarmaMarker (l : List Char) : Option (String × List Char) :=
  match l with
  | '<' :: '@' :: rest =>
    let ident := rest.takeWhile isIdChar
    if ident.isEmpty then none
    else
      match rest.dropWhile isIdChar with
      | '>' :: rest2 =>
        match (rest2.dropWhile isRegexSpace) with
        | '+' :: '+' :: rest3 => some (⟨ident⟩, rest3)
        | _ => none
      | _ => none
  | _ => none

/-- Try `<@([A-Z0-9]+)>` at the head of the list. -/
def tryMention (l : List Char) : Option (String × List Char) :=
  match l with
  | '<' :: '@' :: rest =>
    let ident := rest.takeWhile isIdChar
    if ident.isEmpty then none
    else
      match rest.dropWhile isIdChar with
      | '>' :: rest2 => some (⟨ident⟩, rest2)
      | _ => none
  | _ => none

/-- Fueled scan for `karmaRegex.FindAllStringSubmatch`, capture groups only. -/
def karmaTargetsAux : Nat → List Char → List String
  | 0, _ => []
  | _ + 1, [] => []
  | fuel + 1, c :: rest =>
    match tryKarmaMarker (c :: rest) with
    | some (ident, rest2) => ident :: karmaTargetsAux fuel rest2
    | none => karmaTargetsAux fuel rest

/-- Capture groups of `karmaRegex.FindAllStringSubmatch(text, -1)`. -/
def extractKarmaTargets (text : String) : List String :=
  karmaTargetsAux (text.data.length + 1) text.data

/-- Fueled scan for the plain mention pattern. -/
def mentionsAux : Nat → List Char → List String
  | 0, _ => []
  | _ + 1, [] => []
  | fuel + 1, c :: rest =>
    match tryMention (c :: rest) with
    | some (ident, rest2) => ident :: mentionsAux fuel rest2
    | none => mentionsAux fuel rest

/-- Capture groups of `userMentionRegex.FindAllStringSubmatch(text, -1)`. -/
def extractMentions (text : String) : List String :=
  mentionsAux (text.data.length + 1) text.data

/-! ## Database operations (internal/database/database.go) -/

/-- `INSERT OR REPLACE INTO users`: the `UNIQUE` id column makes this replace
the existing row or append a new one. -/
def UpsertUser : List User → User → List User
  | [], u => [u]
  | x :: rest, u => if x.id = u.id then u :: rest else x :: UpsertUser rest u

/-- The score upsert inside `IncrementKarma`:
`INSERT INTO karma ... VALUES (?, ?, 1, ?) ON CONFLICT(user_id) DO UPDATE SET
score = score + 1`. The `UNIQUE(user_id)` constraint means the conflicting
row, when present, is the single row with this user id; the update leaves the
stored username unchanged. -/
def upsertKarmaScore : List Karma → String → String → List Karma
  | [], uid, uname => [⟨uid, uname, 1⟩]
  | k :: rest, uid, uname =>
    if k.userID = uid then { k with score := k.score + 1 } :: rest
    else k :: upsertKarmaScore rest uid uname

/-- One step of the `IncrementKarma` transaction may fail at the score
upsert, at the log insert, or at commit. -/
structure TxFaults where
  atUpsert : Bool
  atLog : Bool
  atCommit : Bool
deriving DecidableEq, Repr

/-- `IncrementKarma` as the transaction in the source: begin, execute the
score upsert, execute the log insert, commit, with a deferred rollback. The
three fault flags inject a failure at the corresponding statement; any
failure aborts with an error and none of the pending writes survive. -/
def IncrementKarmaTx (f : TxFaults) (d : DB) (userID username givenBy reason channel : String) :
    Except String DB :=
  if f.atUpsert then .error "karma upsert failed" else
  let afterScore : DB := { d with karma := upsertKarmaScore d.karma userID username }
  if f.atLog then .error "karma_log insert failed" else
  let afterLog : DB :=
    { afterScore with karmaLog := afterScore.karmaLog ++ [⟨userID, givenBy, reason, 1, channel⟩] }
  if f.atCommit then .error "commit failed" else
  .ok afterLog

/-- The database state visible after `IncrementKarma` returns: the committed
state on success, the rolled-back original on any error. -/
def observedAfterIncrement (f : TxFaults) (d : DB)
    (userID username givenBy reason channel : String) : DB :=
  match IncrementKarmaTx f d userID username givenBy reason channel with
  | .ok d2 => d2
  | .error _ => d

/-- `IncrementKarma` on the fault-free path, as invoked by the handlers. -/
def IncrementKarma (d : DB) (userID username givenBy reason channel : String) : DB :=
  { d with
    karma := upsertKarmaScore d.karma userID username
    karmaLog := d.karmaLog ++ [⟨userID, givenBy, reason, 1, channel⟩] }

/-- `GetKarma`: `SELECT ... FROM karma WHERE user_id = ?` (first row, or the
`sql.ErrNoRows` error as `none`). -/
def GetKarma (rows : List Karma) (userID : String) : Option Karma :=
  rows.find? (fun k => k.userID == userID)

/-- The stored score of a user, reading a missing row as 0. -/
def lookupScore (d : DB) (userID : String) : Int :=
  ((GetKarma d.karma userID).map (·.score)).getD 0

/-- `GetTopKarma`: `SELECT ... FROM karma ORDER BY score DESC LIMIT ?`. -/
def GetTopKarma (rows : List Karma) (limit : Nat) : List Karma :=
  (rows.mergeSort (fun a b => decide (b.score ≤ a.score))).take limit

/-- `SetBirthday`: `INSERT OR REPLACE INTO birthdays` under `UNIQUE(user_id)`. -/
def SetBirthday : List Birthday → Birthday → List Birthday
  | [], b => [b]
  | x :: rest, b => if x.userID = b.userID then b :: rest else x :: SetBirthday rest b

/-- `GetTodaysBirthdays`: `SELECT ... FROM birthdays WHERE month = ? AND day = ?`. -/
def GetTodaysBirthdays (d : DB) (month day : Int) : List Birthday :=
  d.birthdays.filter (fun b => b.month == month && b.day == day)

/-- The fixed seed list of `insertDefaultSassyResponses`. -/
def defaultSassyResponses : List SassyResponse :=
  [⟨"Oh, you're being polite now? How refreshing! Here's some karma for good manners. 💫", "thank_you", true⟩,
   ⟨"Look who remembered their manners! Take some karma, you well-behaved human. ✨", "thank_you", true⟩,
   ⟨"Gratitude detected! Don't get used to this generosity though... 😏", "thank_you", true⟩,
   ⟨"Thank you? In THIS economy? Fine, here's your karma. 💸", "thank_you", true⟩,
   ⟨"Well well well, someone said thank you. I'm impressed. Have some karma! 🎭", "thank_you", true⟩,
   ⟨"Karma delivered with a side of sass! You're welcome. 💅", "karma_given", true⟩,
   ⟨"Another karma point hits the bank! Keep spreading those good vibes. 🏦", "karma_given", true⟩,
   ⟨"Karma level up! Someone's been a good human today. 📈", "karma_given", true⟩,
   ⟨"Ding! Karma deposited. Your account is looking mighty fine! 💰", "karma_given", true⟩,
   ⟨"Karma inflation is real, but you earned this one! 📊", "karma_given", true⟩]

/-- One iteration of the seed loop: insert the row unless a row with exactly
this response text already exists. -/
def seedStep (t : List SassyResponse) (r : SassyResponse) : List SassyResponse :=
  if t.any (fun x => x.response == r.response) then t else t ++ [r]

/-- `insertDefaultSassyResponses`: fold the seed loop over the fixed list. -/
def insertDefaultSassyResponses (t : List SassyResponse) : List SassyResponse :=
  defaultSassyResponses.foldl seedStep t

/-! ## Handlers (internal/handlers/slack.go) -/

/-- `getChannelName`: the source returns the channel identifier unchanged. -/
def getChannelName (channelID : String) : String := channelID

/-- Drop a leading `#`, as `strings.TrimPrefix(channelName, "#")` does. -/
def dropHash (s : String) : String :=
  if s.startsWith "#" then s.drop 1 else s

/-- `getChannelIDByName`: identifiers starting with `C` pass through;
otherwise the channel list is searched by name (oracle). -/
def getChannelIDByName (env : Env) (channelName : String) : Option String :=
  if channelName.startsWith "C" then some channelName
  else env.resolveChannel (dropHash channelName)

/-- `postToGratefulChannel`: skipped when unconfigured or unresolvable,
otherwise one plain message with a permalink built from the thread timestamp. -/
def postToGratefulChannel (env : Env) (userID origChannel threadTS : String) : List OutMsg :=
  if env.gratefulChannel = "" then []
  else
    match getChannelIDByName env env.gratefulChannel with
    | none => []
    | some cid =>
      [⟨cid, none,
        "<@" ++ userID ++ "> received <https://slack.com/archives/" ++ origChannel ++
          "/p" ++ String.mk (removeFirstDot threadTS.data) ++ "|thanks>!"⟩]

/-- The fixed self-karma rejection reply. -/
def selfKarmaReject : String :=
  "Nice try! You can't give karma to yourself. That's cheating! 🚫"

/-- The fixed bot-karma rejection reply. -/
def botKarmaReject : String :=
  "Aww, trying to give me karma? I'm touched, but I'm already perfect! 😎"

/-- The loop body of `handleKarmaIncrements` for one captured target,
threading the database and the list of messages posted so far. -/
def processKarmaMatch (env : Env) (ev : MessageEvent) (st : DB × List OutMsg)
    (target : String) : DB × List OutMsg :=
  let d := st.1
  let out := st.2
  if target = ev.user then
    (d, out ++ [⟨ev.channel, some ev.timeStamp, selfKarmaReject⟩])
  else if target = env.botID then
    (d, out ++ [⟨ev.channel, some ev.timeStamp, botKarmaReject⟩])
  else
    match env.lookup target with
    | none => (d, out)
    | some info =>
      let d1 := { d with users := UpsertUser d.users ⟨info.id, info.name, info.realName, info.email⟩ }
      let reason := "Karma given in #" ++ getChannelName ev.channel
      let d2 := IncrementKarma d1 target info.name ev.user reason ev.channel
      let response :=
        match GetKarma d2.karma target with
        | some k =>
          "Karma level up! <@" ++ target ++ "> now has " ++ toString k.score ++ " karma points! 📈✨"
        | none => "Karma delivered to <@" ++ target ++ ">! 💫"
      let response :=
        match env.sassyPick "karma_given" with
        | some sr => response ++ "\n" ++ sr.response
        | none => response
      (d2,
        out ++ [⟨ev.channel, some ev.timeStamp, response⟩] ++
          postToGratefulChannel env target ev.channel ev.timeStamp)

/-- `handleKarmaIncrements` restricted to a given list of captured targets. -/
def handleKarmaTargets (env : Env) (ev : MessageEvent) (targets : List String)
    (st : DB × List OutMsg) : DB × List OutMsg :=
  targets.foldl (processKarmaMatch env ev) st

/-- `handleKarmaIncrements`: process every `karmaRegex` capture left to right. -/
def handleKarmaIncrements (env : Env) (ev : MessageEvent) (d : DB) : DB × List OutMsg :=
  handleKarmaTargets env ev (extractKarmaTargets ev.text) (d, [])

/-- The first loop over mentions in `handleThankYou`: the name of the first
mentioned user other than the bot and the sender whose profile lookup
succeeds; the empty string when there is none (mirroring the source's
zero-value sentinel). -/
def findThankedUsername (env : Env) (sender : String) : List String → String
  | [] => ""
  | m :: rest =>
    if m ≠ env.botID ∧ m ≠ sender then
      match env.lookup m with
      | some info => info.name
      | none => findThankedUsername env sender rest
    else findThankedUsername env sender rest

/-- The second loop: the first mentioned user other than the bot and the
sender, regardless of whether its profile lookup succeeds. -/
def findGratefulUserID (env : Env) (sender : String) (mentions : List String) : String :=
  ((mentions.find? (fun m => m != env.botID && m != sender)).getD "")

/-- `handleThankYou`: on a gratitude match, upsert the sender, credit the
sender one karma point with the bot as the giver, reply in-thread, and
cross-post to the grateful channel only when a distinct thanked user was
identified. -/
def handleThankYou (env : Env) (ev : MessageEvent) (d : DB) : DB × List OutMsg :=
  if !thankYouRegexMatch ev.text then (d, [])
  else
    match env.lookup ev.user with
    | none => (d, [])
    | some info =>
      let d1 := { d with users := UpsertUser d.users ⟨info.id, info.name, info.realName, info.email⟩ }
      let mentions := extractMentions ev.text
      let targetUsername := findThankedUsername env ev.user mentions
      let reason := "Said thank you in #" ++ getChannelName ev.channel
      let d2 := IncrementKarma d1 ev.user info.name env.botID reason ev.channel
      let response :=
        match env.sassyPick "thank_you" with
        | none => "Politeness detected! <@" ++ ev.user ++ "> gets karma for good manners! ✨"
        | some sr => "<@" ++ ev.user ++ "> " ++ sr.response
      let out := [⟨ev.channel, some ev.timeStamp, response⟩]
      let out :=
        if targetUsername ≠ "" then
          let gratefulUserID := findGratefulUserID env ev.user mentions
          if gratefulUserID ≠ "" then
            out ++ postToGratefulChannel env gratefulUserID ev.channel ev.timeStamp
          else out
        else out
      (d2, out)

/-- The positional glyphs of both leaderboard renderers. -/
def leaderboardEmojis : List String :=
  ["🥇", "🥈", "🥉", "4️⃣", "5️⃣", "6️⃣", "7️⃣", "8️⃣", "9️⃣", "🔟"]

/-- The leaderboard rows, indexing `leaderboardEmojis` by row position.
`none` models the out-of-bounds panic of `emojis[i]`. -/
def renderRows : Nat → List Karma → Option String
  | _, [] => some ""
  | i, k :: rest =>
    match leaderboardEmojis[i]? with
    | none => none
    | some e =>
      (renderRows (i + 1) rest).map
        (fun s => e ++ " <@" ++ k.userID ++ "> - " ++ toString k.score ++ " karma\n" ++ s)

/-- The empty-leaderboard reply shared by both renderers. -/
def noKarmaYet : String :=
  "No karma recorded yet! Be the first to spread some love with @username++ 💫"

/-- `handleTopKarmaCommand`: the reply text of `/top-karma` (the database
query cannot fail in the pure model, so the error branch is unreachable). -/
def handleTopKarmaCommand (d : DB) : Option String :=
  let karmas := GetTopKarma d.karma 10
  if karmas.isEmpty then some noKarmaYet
  else
    (renderRows 0 karmas).map
      (fun body => "🏆 *Karma Leaderboard* 🏆\n\n" ++ body ++ "\nKeep spreading those good vibes! ✨")

/-- `sendTopKarma`: the message posted for a leaderboard app mention. -/
def sendTopKarma (channel : String) (d : DB) : Option OutMsg :=
  let karmas := GetTopKarma d.karma 10
  if karmas.isEmpty then some ⟨channel, none, noKarmaYet⟩
  else
    (renderRows 0 karmas).map
      (fun body =>
        ⟨channel, none, "🏆 *Karma Leaderboard* 🏆\n\n" ++ body ++ "\nKeep spreading those good vibes! ✨"⟩)

/-- The usage reply of `/set-birthday` with no argument. -/
def birthdayUsage : String :=
  "Please provide your birthday in format: MM/DD or MM/DD/YYYY\nExample: `/set-birthday 03/15` or `/set-birthday 03/15/1990`"

/-- The malformed-argument reply of `/set-birthday`. -/
def birthdayBadFormat : String :=
  "Invalid format! Use MM/DD or MM/DD/YYYY\nExample: `/set-birthday 03/15` or `/set-birthday 03/15/1990`"

/-- Shared validation and upsert once the argument is split into two or three
fields, mirroring the straight-line body of `handleSetBirthdayCommand`. -/
def setBirthdayParts (env : Env) (currentYear : Int) (userID : String)
    (p0 p1 : List Char) (p2 : Option (List Char)) (d : DB) : DB × String :=
  match atoi p0 with
  | none => (d, "Invalid month! Please use MM/DD format.")
  | some month =>
    if month < 1 ∨ month > 12 then (d, "Invalid month! Please use MM/DD format.")
    else
      match atoi p1 with
      | none => (d, "Invalid day! Please use MM/DD format.")
      | some day =>
        if day < 1 ∨ day > 31 then (d, "Invalid day! Please use MM/DD format.")
        else
          let yearResult : Option Int :=
            match p2 with
            | none => some 0
            | some p =>
              match atoi p with
              | none => none
              | some y => if y < 1900 ∨ y > currentYear then none else some y
          match yearResult with
          | none => (d, "Invalid year! Please use a valid year.")
          | some year =>
            match env.lookup userID with
            | none => (d, "Error getting your user info! 😅")
            | some info =>
              let b : Birthday := ⟨userID, info.name, month, day, year, "UTC"⟩
              let d2 := { d with birthdays := SetBirthday d.birthdays b }
              let dateStr :=
                if year > 0 then pad2 month ++ "/" ++ pad2 day ++ "/" ++ toString year
                else pad2 month ++ "/" ++ pad2 day
              (d2, "🎂 Birthday saved! I'll wish you happy birthday on " ++ dateStr ++ "! 🎉")

/-- `handleSetBirthdayCommand`: parse and validate the argument, then upsert
the caller's birthday; returns the possibly-updated database and the reply. -/
def handleSetBirthdayCommand (env : Env) (currentYear : Int) (userID text : String)
    (d : DB) : DB × String :=
  if text = "" then (d, birthdayUsage)
  else
    match splitOnSlash (trimSpaces text.data) with
    | [p0, p1] => setBirthdayParts env currentYear userID p0 p1 none d
    | [p0, p1, p2] => setBirthdayParts env currentYear userID p0 p1 (some p2) d
    | _ => (d, birthdayBadFormat)

/-- `getOrdinalSuffix` (ages here are nonnegative, where Go `%` and `Int.emod`
agree). -/
def getOrdinalSuffix (n : Int) : String :=
  if n % 100 ≥ 11 ∧ n % 100 ≤ 13 then "th"
  else if n % 10 = 1 then "st"
  else if n % 10 = 2 then "nd"
  else if n % 10 = 3 then "rd"
  else "th"

/-- The age-aware birthday message for a stored year above 1970. -/
def birthdayAgeMessage (nowYear : Int) (b : Birthday) : String :=
  let age := nowYear - b.year
  "🎂 Happy Birthday <@" ++ b.userID ++ ">! 🎉\nAnother year older, another year wiser! Hope your " ++
    toString age ++ getOrdinalSuffix age ++ " year is absolutely amazing! 🎊✨"

/-- The generic birthday message. -/
def birthdayGenericMessage (b : Birthday) : String :=
  "🎂 Happy Birthday <@" ++ b.userID ++ ">! 🎉\nHope your special day is filled with joy, laughter, and maybe some cake! 🎊✨"

/-- The message composed per record in the sweep loop: the source switches on
`birthday.Year > 1970`, not on whether the year is known. -/
def composeBirthdayMessage (nowYear : Int) (b : Birthday) : String :=
  if b.year > 1970 then birthdayAgeMessage nowYear b else birthdayGenericMessage b

/-- `SendBirthdayReminder`: one message to the people channel per record
whose month and day equal today's. -/
def SendBirthdayReminder (env : Env) (nowYear nowMonth nowDay : Int) (d : DB) : List OutMsg :=
  (GetTodaysBirthdays d nowMonth nowDay).map
    (fun b => ⟨env.peopleChannel, none, composeBirthdayMessage nowYear b⟩)

/-! ## Ledger invariants -/

/-- Total stored score of a user (the single row's score under the
`UNIQUE(user_id)` constraint, summed so the notion is constraint-free). -/
def scoreSum (rows : List Karma) (u : String) : Int :=
  ((rows.filter (fun k => k.userID == u)).map (fun k => k.score)).sum

/-- Total of the audit-log deltas recorded for a user. -/
def logSum (rows : List KarmaLog) (u : String) : Int :=
  ((rows.filter (fun r => r.userID == u)).map (fun r => r.change)).sum

/-- Every user's stored score equals the sum of their audit-log deltas. -/
def karmaConsistent (d : DB) : Prop :=
  ∀ u : String, scoreSum d.karma u = logSum d.karmaLog u

/-! ## Helper lemmas -/

theorem scoreSum_cons (k : Karma) (l : List Karma) (u : String) :
    scoreSum (k :: l) u = (if k.userID = u then k.score else 0) + scoreSum l u := by
  by_cases h : k.userID = u <;> simp [scoreSum, List.filter_cons, h]

theorem logSum_append_single (l : List KarmaLog) (r : KarmaLog) (u : String) :
    logSum (l ++ [r]) u = logSum l u + (if r.userID = u then r.change else 0) := by
  by_cases h : r.userID = u <;> simp [logSum, List.filter_append, List.filter_cons, h]

theorem scoreSum_upsert (rows : List Karma) (uid uname u : String) :
    scoreSum (upsertKarmaScore rows uid uname) u
      = scoreSum rows u + (if uid = u then 1 else 0) := by
  induction rows with
  | nil => by_cases h : uid = u <;> simp [upsertKarmaScore, scoreSum, List.filter_cons, h]
  | cons k ks ih =>
    by_cases h : k.userID = uid
    · subst h
      by_cases h2 : k.userID = u
      · simp [upsertKarmaScore, scoreSum_cons, h2]
        ring
      · simp [upsertKarmaScore, scoreSum_cons, h2]
    · rw [upsertKarmaScore]
      simp only [if_neg h]
      rw [scoreSum_cons, scoreSum_cons, ih]
      ring

/-- `GetKarma` after the score upsert, at the upserted user: the previous row
with its score bumped, or a fresh row with score 1. -/
theorem getKarma_upsert_self (rows : List Karma) (uid uname : String) :
    GetKarma (upsertKarmaScore rows uid uname) uid
      = match GetKarma rows uid with
        | some k => some { k with score := k.score + 1 }
        | none => some ⟨uid, uname, 1⟩ := by
  induction rows with
  | nil => simp [upsertKarmaScore, GetKarma]
  | cons k ks ih =>
    by_cases h : k.userID = uid
    · simp [upsertKarmaScore, h, GetKarma, List.find?_cons]
    · have hb : (k.userID == uid) = false := by simp [h]
      simp only [upsertKarmaScore, if_neg h, GetKarma, List.find?_cons, hb] at ih ⊢
      exact ih

/-- `GetKarma` after the score upsert, at any other user: unchanged. -/
theorem getKarma_upsert_ne (rows : List Karma) (uid uname u : String) (h : u ≠ uid) :
    GetKarma (upsertKarmaScore rows uid uname) u = GetKarma rows u := by
  have hb : (uid == u) = false := by simp [Ne.symm h]
  induction rows with
  | nil => simp [upsertKarmaScore, GetKarma, List.find?_cons, hb]
  | cons k ks ih =>
    by_cases hk : k.userID = uid
    · have hku : (k.userID == u) = false := by rw [hk]; exact hb
      simp [upsertKarmaScore, hk, GetKarma, List.find?_cons, hku, hb]
    · simp only [upsertKarmaScore, if_neg hk, GetKarma, List.find?_cons] at ih ⊢
      cases hcase : (k.userID == u) with
      | true => simp [hcase]
      | false => simp [hcase, ih]

/-- The freshly seeded table always contains a row with the seeded text. -/
theorem seedStep_mem (t : List SassyResponse) (r : SassyResponse) :
    (seedStep t r).any (fun x => x.response == r.response) = true := by
  by_cases h : t.any (fun x => x.response == r.response) = true
  · simp [seedStep, h]
  · simp [seedStep, h]

/-- Seeding never removes a row text already present. -/
theorem seedStep_mono (t : List SassyResponse) (r : SassyResponse) (x : String)
    (h : t.any (fun y => y.response == x) = true) :
    (seedStep t r).any (fun y => y.response == x) = true := by
  by_cases hc : t.any (fun y => y.response == r.response) = true
  · simpa [seedStep, hc] using h
  · simp [seedStep, hc, List.any_append, h]

/-- The seed fold never removes a row text already present. -/
theorem foldl_seed_mono (l : List SassyResponse) (t : List SassyResponse) (x : String)
    (h : t.any (fun y => y.response == x) = true) :
    (l.foldl seedStep t).any (fun y => y.response == x) = true := by
  induction l generalizing t with
  | nil => simpa using h
  | cons a l ih => exact ih (seedStep t a) (seedStep_mono t a x h)

/-- After the seed fold, every seeded row's text is present. -/
theorem foldl_seed_mem (l : List SassyResponse) (t : List SassyResponse) (r : SassyResponse)
    (h : r ∈ l) :
    (l.foldl seedStep t).any (fun y => y.response == r.response) = true := by
  induction l generalizing t with
  | nil => cases h
  | cons a l ih =>
    rcases List.mem_cons.mp h with h | h
    · subst h
      exact foldl_seed_mono l (seedStep t r) r.response (seedStep_mem t r)
    · exact ih (seedStep t a) h

/-- The seed fold is the identity when every seeded text is already present. -/
theorem foldl_seed_id (l : List SassyResponse) (t : List SassyResponse)
    (h : ∀ r ∈ l, t.any (fun y => y.response == r.response) = true) :
    l.foldl seedStep t = t := by
  induction l generalizing t with
  | nil => rfl
  | cons a l ih =>
    have ha : seedStep t a = t := by simp [seedStep, h a (List.mem_cons_self a l)]
    rw [List.foldl_cons, ha]
    exact ih t (fun r hr => h r (List.mem_cons_of_mem a hr))

/-! ## Concrete fixtures used by witnesses and counterexamples -/

/-- Profile fixture for user `U1`. -/
def infoU1 : UserInfo := ⟨"U1", "alice", "Alice A", "alice@example.com"⟩

/-- Profile fixture for user `U9`. -/
def infoU9 : UserInfo := ⟨"U9", "bob", "Bob B", "bob@example.com"⟩

/-- Environment fixture: bot `UBOT`, profiles for `U1` and `U9`, no canned
responses, every channel name resolving to `C777`. -/
def env0 : Env :=
  ⟨"UBOT", "people", "thankyou",
    fun u => if u = "U1" then some infoU1 else if u = "U9" then some infoU9 else none,
    fun _ => none,
    fun _ => some "C777"⟩

/-- Message fixture: `U9` credits `U1` with one increment marker. -/
def ev0 : MessageEvent := ⟨"U9", "Great job <@U1>++ today!", "C123", "1700000000.000100"⟩

/-- Message fixture: `U9` thanks `U1`. -/
def evThanks : MessageEvent := ⟨"U9", "Thank you <@U1> for the help!", "C123", "1700000000.000200"⟩

/-- A consistent ledger fixture: `U1` has score 2 and two logged `+1` deltas. -/
def dbC3 : DB :=
  ⟨[], [⟨"U1", "alice", 2⟩],
    [⟨"U1", "U9", "r1", 1, "C1"⟩, ⟨"U1", "U8", "r2", 1, "C1"⟩], [], []⟩

/-- A birthday record with a known year of 1950. -/
def bday1950 : Birthday := ⟨"U1", "alice", 3, 15, 1950, "UTC"⟩

/-- A database holding only `bday1950`. -/
def dbBday : DB := ⟨[], [], [], [bday1950], []⟩

/-! ## Claims -/

/-- C4: the gratitude recognizer is word-bounded and case-insensitive: the
texts "thankful" and "cassandra" do not trigger it, while "Thank You!",
"thx" and "ty" trigger it, both alone and as standalone words inside longer
text, in any letter case. -/
theorem C4_gratitude_word_bounded :
    thankYouRegexMatch "thankful" = false
    ∧ thankYouRegexMatch "cassandra" = false
    ∧ thankYouRegexMatch "Thank You!" = true
    ∧ thankYouRegexMatch "thx" = true
    ∧ thankYouRegexMatch "ty" = true
    ∧ thankYouRegexMatch "well THX for that" = true
    ∧ thankYouRegexMatch "ok ty!" = true
    ∧ thankYouRegexMatch "I am thankful for cassandra" = false
    ∧ thankYouRegexMatch "this thanksgiving party" = false
    ∧ thankYouRegexMatch "a typo in style" = false := by
  decide

/-- C9: the startup seeding of canned responses is idempotent: it only
inserts rows whose exact response text is absent, so a second run on any
state produced by a first run changes nothing. -/
theorem C9_seed_idempotent (t : List SassyResponse) :
    insertDefaultSassyResponses (insertDefaultSassyResponses t)
      = insertDefaultSassyResponses t :=
  foldl_seed_id defaultSassyResponses (insertDefaultSassyResponses t)
    (fun r hr => foldl_seed_mem defaultSassyResponses t r hr)

/-- C2: an increment marker whose target is the sender or the bot leaves the
database untouched, posts exactly one fixed in-thread rejection reply, and
the loop continues with the remaining matches from the unchanged state. -/
theorem C2_self_or_bot_rejected (env : Env) (ev : MessageEvent) (d : DB)
    (out : List OutMsg) (target : String) (ts : List String)
    (h : target = ev.user ∨ target = env.botID) :
    processKarmaMatch env ev (d, out) target
      = (d, out ++ [⟨ev.channel, some ev.timeStamp,
          if target = ev.user then selfKarmaReject else botKarmaReject⟩])
    ∧ handleKarmaTargets env ev (target :: ts) (d, out)
      = handleKarmaTargets env ev ts
          (d, out ++ [⟨ev.channel, some ev.timeStamp,
            if target = ev.user then selfKarmaReject else botKarmaReject⟩]) := by
  have hstep : processKarmaMatch env ev (d, out) target
      = (d, out ++ [⟨ev.channel, some ev.timeStamp,
          if target = ev.user then selfKarmaReject else botKarmaReject⟩]) := by
    by_cases hs : target = ev.user
    · simp [processKarmaMatch, hs]
    · rcases h with h | hb
      · exact absurd h hs
      · have hs2 : ¬ env.botID = ev.user := by rw [← hb]; exact hs
        simp [processKarmaMatch, hs, hb, hs2]
  refine ⟨hstep, ?_⟩
  rw [handleKarmaTargets, List.foldl_cons, hstep]
  rfl

/-- C2 witness: in the fixture, the marker target `U9` equals the sender, so
processing posts the fixed self-rejection in-thread and nothing else. -/
theorem C2_self_or_bot_rejected_witness :
    processKarmaMatch env0 ev0 (emptyDB, []) "U9"
      = (emptyDB, [⟨ev0.channel, some ev0.timeStamp, selfKarmaReject⟩])
    ∧ handleKarmaTargets env0 ev0 ["U9", "U1"] (emptyDB, [])
      = handleKarmaTargets env0 ev0 ["U1"]
          (emptyDB, [⟨ev0.channel, some ev0.timeStamp, selfKarmaReject⟩]) := by
  have h := C2_self_or_bot_rejected env0 ev0 emptyDB [] "U9" ["U1"] (Or.inl rfl)
  simpa using h

/-- C1: a valid increment marker (target distinct from sender and bot) whose
profile lookup succeeds bumps the target's stored score by exactly one
(creating the row with score 1 when absent) and appends exactly one audit row
with delta `+1` and the sender as the giver. -/
theorem C1_valid_increment (env : Env) (ev : MessageEvent) (d : DB)
    (out : List OutMsg) (target : String) (info : UserInfo)
    (_hmem : target ∈ extractKarmaTargets ev.text)
    (hself : target ≠ ev.user) (hbot : target ≠ env.botID)
    (hlookup : env.lookup target = some info) :
    lookupScore (processKarmaMatch env ev (d, out) target).1 target
      = lookupScore d target + 1
    ∧ (processKarmaMatch env ev (d, out) target).1.karmaLog
      = d.karmaLog ++ [⟨target, ev.user, "Karma given in #" ++ ev.channel, 1, ev.channel⟩]
    ∧ (GetKarma d.karma target = none →
        GetKarma (processKarmaMatch env ev (d, out) target).1.karma target
          = some ⟨target, info.name, 1⟩) := by
  refine ⟨?_, ?_, ?_⟩
  · simp only [processKarmaMatch, if_neg hself, if_neg hbot, hlookup, IncrementKarma,
      lookupScore]
    rw [getKarma_upsert_self]
    cases hk : GetKarma d.karma target with
    | none => simp [hk]
    | some k => simp [hk]
  · simp [processKarmaMatch, if_neg hself, if_neg hbot, hlookup, IncrementKarma,
      getChannelName]
  · intro hnone
    simp only [processKarmaMatch, if_neg hself, if_neg hbot, hlookup, IncrementKarma]
    rw [getKarma_upsert_self, hnone]

/-- C1 witness: in the fixture message, `U9` credits `U1`; starting from the
empty database the row is created with score 1 and one audit row appended. -/
theorem C1_valid_increment_witness :
    lookupScore (processKarmaMatch env0 ev0 (emptyDB, []) "U1").1 "U1"
      = lookupScore emptyDB "U1" + 1
    ∧ (processKarmaMatch env0 ev0 (emptyDB, []) "U1").1.karmaLog
      = emptyDB.karmaLog
        ++ [⟨"U1", ev0.user, "Karma given in #" ++ ev0.channel, 1, ev0.channel⟩]
    ∧ (GetKarma emptyDB.karma "U1" = none →
        GetKarma (processKarmaMatch env0 ev0 (emptyDB, []) "U1").1.karma "U1"
          = some ⟨"U1", infoU1.name, 1⟩) :=
  C1_valid_increment env0 ev0 emptyDB [] "U1" infoU1
    (by decide) (by decide) (by decide) rfl

/-- C5: a message that triggers the gratitude recognizer credits exactly the
sender one point — every other user's karma row is untouched, however many
users are mentioned — and the single audit row names the bot as the giver
with a "Said thank you" reason. -/
theorem C5_gratitude_credits_sender (env : Env) (ev : MessageEvent) (d : DB)
    (info : UserInfo) (hmatch : thankYouRegexMatch ev.text = true)
    (hlookup : env.lookup ev.user = some info) :
    lookupScore (handleThankYou env ev d).1 ev.user = lookupScore d ev.user + 1
    ∧ (handleThankYou env ev d).1.karmaLog
      = d.karmaLog ++ [⟨ev.user, env.botID, "Said thank you in #" ++ ev.channel, 1, ev.channel⟩]
    ∧ ∀ u : String, u ≠ ev.user →
        GetKarma (handleThankYou env ev d).1.karma u = GetKarma d.karma u := by
  refine ⟨?_, ?_, ?_⟩
  · simp only [handleThankYou, hmatch, Bool.not_true, Bool.false_eq_true, if_false,
      hlookup, IncrementKarma, lookupScore]
    rw [getKarma_upsert_self]
    cases hk : GetKarma d.karma ev.user with
    | none => simp [hk]
    | some k => simp [hk]
  · simp [handleThankYou, hmatch, hlookup, IncrementKarma, getChannelName]
  · intro u hu
    simp only [handleThankYou, hmatch, Bool.not_true, Bool.false_eq_true, if_false,
      hlookup, IncrementKarma]
    exact getKarma_upsert_ne d.karma ev.user info.name u hu

/-- C5 witness: `U9` thanks `U1`; the sender `U9` is credited from 0 to 1,
the audit row names the bot, and the mentioned `U1` keeps no karma row. -/
theorem C5_gratitude_credits_sender_witness :
    lookupScore (handleThankYou env0 evThanks emptyDB).1 "U9"
      = lookupScore emptyDB "U9" + 1
    ∧ (handleThankYou env0 evThanks emptyDB).1.karmaLog
      = emptyDB.karmaLog
        ++ [⟨"U9", env0.botID, "Said thank you in #" ++ evThanks.channel, 1, evThanks.channel⟩]
    ∧ GetKarma (handleThankYou env0 evThanks emptyDB).1.karma "U1"
      = GetKarma emptyDB.karma "U1" := by
  have h := C5_gratitude_credits_sender env0 evThanks emptyDB infoU9 (by decide) rfl
  exact ⟨h.1, h.2.1, h.2.2 "U1" (by decide)⟩

/-- C3 counterexample: the claimed drift scenario — the score upsert applied
but the audit-log insert failing — cannot happen: `IncrementKarma` runs both
statements in one transaction with a deferred rollback, so on that partial
failure the observed database is exactly the original and the score still
equals the audit-log sum. -/
theorem C3_no_drift_counterexample :
    scoreSum dbC3.karma "U1" = logSum dbC3.karmaLog "U1"
    ∧ observedAfterIncrement ⟨false, true, false⟩ dbC3 "U1" "alice" "U7" "r3" "C1" = dbC3
    ∧ scoreSum (observedAfterIncrement ⟨false, true, false⟩ dbC3 "U1" "alice" "U7" "r3" "C1").karma "U1"
      = logSum (observedAfterIncrement ⟨false, true, false⟩ dbC3 "U1" "alice" "U7" "r3" "C1").karmaLog "U1" := by
  decide

/-- C3 (amended): the score upsert and the audit-log append are atomic — the
source wraps both in a single transaction rolled back on any failure — so
score-equals-sum-of-deltas is preserved by every increment, with or without
an injected statement or commit failure; the score never drifts from the
audit trail. -/
theorem C3_increment_atomic (f : TxFaults) (d : DB)
    (userID username givenBy reason channel : String)
    (h : karmaConsistent d) :
    karmaConsistent (observedAfterIncrement f d userID username givenBy reason channel) := by
  intro u
  by_cases h1 : f.atUpsert = true
  · simp [observedAfterIncrement, IncrementKarmaTx, h1, h u]
  · by_cases h2 : f.atLog = true
    · simp [observedAfterIncrement, IncrementKarmaTx, h1, h2, h u]
    · by_cases h3 : f.atCommit = true
      · simp [observedAfterIncrement, IncrementKarmaTx, h1, h2, h3, h u]
      · simp only [observedAfterIncrement, IncrementKarmaTx, h1, h2, h3, Bool.false_eq_true,
          if_false]
        rw [scoreSum_upsert, logSum_append_single, h u]

/-- C3 witness: the amended theorem applied to the empty (trivially
consistent) database with a failure injected at the audit-log insert. -/
theorem C3_increment_atomic_witness :
    karmaConsistent emptyDB
    ∧ karmaConsistent (observedAfterIncrement ⟨false, true, false⟩ emptyDB "U1" "alice" "U9" "r" "C1") :=
  ⟨fun _ => rfl,
    C3_increment_atomic ⟨false, true, false⟩ emptyDB "U1" "alice" "U9" "r" "C1" (fun _ => rfl)⟩

/-- C6: the leaderboard query returns at most 10 rows in descending score
order, and on an empty result the handler replies with the empty-state
message rather than a table. -/
theorem C6_leaderboard_top10 (d : DB) :
    (GetTopKarma d.karma 10).length ≤ 10
    ∧ List.Pairwise (fun a b : Karma => b.score ≤ a.score) (GetTopKarma d.karma 10)
    ∧ (GetTopKarma d.karma 10 = [] → handleTopKarmaCommand d = some noKarmaYet) := by
  refine ⟨?_, ?_, ?_⟩
  · simp [GetTopKarma]
  · have htrans : ∀ a b c : Karma,
        decide (b.score ≤ a.score) = true → decide (c.score ≤ b.score) = true →
          decide (c.score ≤ a.score) = true := by
      intro a b c hab hbc
      exact decide_eq_true (le_trans (of_decide_eq_true hbc) (of_decide_eq_true hab))
    have htotal : ∀ a b : Karma,
        (decide (b.score ≤ a.score) || decide (a.score ≤ b.score)) = true := by
      intro a b
      rcases le_total a.score b.score with h | h
      · simp [h]
      · simp [h]
    have hs := List.sorted_mergeSort htrans htotal d.karma
    have hsub : (GetTopKarma d.karma 10).Sublist
        (d.karma.mergeSort (fun a b => decide (b.score ≤ a.score))) :=
      List.take_sublist _ _
    exact (List.Pairwise.sublist hsub hs).imp (fun h => of_decide_eq_true h)
  · intro h
    simp [handleTopKarmaCommand, h]

/-- C6 witness: on the empty database the query returns no rows, which is
within the bound, and the handler posts the empty-state message. -/
theorem C6_leaderboard_top10_witness :
    (GetTopKarma emptyDB.karma 10).length ≤ 10
    ∧ handleTopKarmaCommand emptyDB = some noKarmaYet :=
  ⟨(C6_leaderboard_top10 emptyDB).1,
    (C6_leaderboard_top10 emptyDB).2.2 (by simp [GetTopKarma, emptyDB])⟩

/-- Rendering succeeds whenever the remaining rows fit the glyph table. -/
theorem renderRows_isSome (l : List Karma) (i : Nat) (h : i + l.length ≤ 10) :
    (renderRows i l).isSome = true := by
  induction l generalizing i with
  | nil => simp [renderRows]
  | cons k rest ih =>
    have hi : i < leaderboardEmojis.length := by
      rw [show leaderboardEmojis.length = 10 from rfl]
      simp only [List.length_cons] at h
      omega
    have he : leaderboardEmojis[i]? = some leaderboardEmojis[i] :=
      List.getElem?_eq_getElem hi
    have hrest : (renderRows (i + 1) rest).isSome = true := by
      apply ih
      simp only [List.length_cons] at h
      omega
    rw [renderRows, he]
    simpa using hrest

/-- C10: neither leaderboard renderer can index the 10-glyph array out of
bounds: the query is called with limit 10, so at most 10 rows are rendered
and both renderers succeed on every database state. -/
theorem C10_emoji_index_safe (d : DB) (channel : String) :
    (handleTopKarmaCommand d).isSome = true
    ∧ (sendTopKarma channel d).isSome = true := by
  have hlen : (GetTopKarma d.karma 10).length ≤ 10 := by simp [GetTopKarma]
  have hr : (renderRows 0 (GetTopKarma d.karma 10)).isSome = true :=
    renderRows_isSome (GetTopKarma d.karma 10) 0 (by omega)
  constructor
  · rw [handleTopKarmaCommand]
    by_cases he : (GetTopKarma d.karma 10).isEmpty
    · simp [he]
    · simp [he, hr]
  · rw [sendTopKarma]
    by_cases he : (GetTopKarma d.karma 10).isEmpty
    · simp [he]
    · simp [he, hr]

/-- C7: set-birthday rejects month 13, day 0, day 32, and years outside
[1900, current year], each with a corrective reply and no database change; it
accepts "03/15" (storing year 0 = unknown) and "03/15/1990", upserting the
caller's record. Stated at current year 2026 for caller `U1`. -/
theorem C7_set_birthday_validation (env : Env) (d : DB) (info : UserInfo)
    (hlookup : env.lookup "U1" = some info) :
    handleSetBirthdayCommand env 2026 "U1" "13/15" d
      = (d, "Invalid month! Please use MM/DD format.")
    ∧ handleSetBirthdayCommand env 2026 "U1" "03/0" d
      = (d, "Invalid day! Please use MM/DD format.")
    ∧ handleSetBirthdayCommand env 2026 "U1" "03/32" d
      = (d, "Invalid day! Please use MM/DD format.")
    ∧ handleSetBirthdayCommand env 2026 "U1" "03/15/1899" d
      = (d, "Invalid year! Please use a valid year.")
    ∧ handleSetBirthdayCommand env 2026 "U1" "03/15/2027" d
      = (d, "Invalid year! Please use a valid year.")
    ∧ handleSetBirthdayCommand env 2026 "U1" "03/15" d
      = ({ d with birthdays := SetBirthday d.birthdays ⟨"U1", info.name, 3, 15, 0, "UTC"⟩ },
         "🎂 Birthday saved! I'll wish you happy birthday on 03/15! 🎉")
    ∧ handleSetBirthdayCommand env 2026 "U1" "03/15/1990" d
      = ({ d with birthdays := SetBirthday d.birthdays ⟨"U1", info.name, 3, 15, 1990, "UTC"⟩ },
         "🎂 Birthday saved! I'll wish you happy birthday on 03/15/1990! 🎉") := by
  refine ⟨rfl, rfl, rfl, rfl, rfl, ?_, ?_⟩
  · show (match env.lookup "U1" with
      | none => (d, "Error getting your user info! 😅")
      | some info =>
        ({ d with birthdays := SetBirthday d.birthdays ⟨"U1", info.name, 3, 15, 0, "UTC"⟩ },
         "🎂 Birthday saved! I'll wish you happy birthday on 03/15! 🎉")) = _
    rw [hlookup]
  · show (match env.lookup "U1" with
      | none => (d, "Error getting your user info! 😅")
      | some info =>
        ({ d with birthdays := SetBirthday d.birthdays ⟨"U1", info.name, 3, 15, 1990, "UTC"⟩ },
         "🎂 Birthday saved! I'll wish you happy birthday on 03/15/1990! 🎉")) = _
    rw [hlookup]

/-- C7 witness: the validation theorem at the concrete fixture environment
and the empty database. -/
theorem C7_set_birthday_validation_witness :
    handleSetBirthdayCommand env0 2026 "U1" "13/15" emptyDB
      = (emptyDB, "Invalid month! Please use MM/DD format.")
    ∧ handleSetBirthdayCommand env0 2026 "U1" "03/0" emptyDB
      = (emptyDB, "Invalid day! Please use MM/DD format.")
    ∧ handleSetBirthdayCommand env0 2026 "U1" "03/32" emptyDB
      = (emptyDB, "Invalid day! Please use MM/DD format.")
    ∧ handleSetBirthdayCommand env0 2026 "U1" "03/15/1899" emptyDB
      = (emptyDB, "Invalid year! Please use a valid year.")
    ∧ handleSetBirthdayCommand env0 2026 "U1" "03/15/2027" emptyDB
      = (emptyDB, "Invalid year! Please use a valid year.")
    ∧ handleSetBirthdayCommand env0 2026 "U1" "03/15" emptyDB
      = ({ emptyDB with
            birthdays := SetBirthday emptyDB.birthdays ⟨"U1", infoU1.name, 3, 15, 0, "UTC"⟩ },
         "🎂 Birthday saved! I'll wish you happy birthday on 03/15! 🎉")
    ∧ handleSetBirthdayCommand env0 2026 "U1" "03/15/1990" emptyDB
      = ({ emptyDB with
            birthdays := SetBirthday emptyDB.birthdays ⟨"U1", infoU1.name, 3, 15, 1990, "UTC"⟩ },
         "🎂 Birthday saved! I'll wish you happy birthday on 03/15/1990! 🎉") :=
  C7_set_birthday_validation env0 emptyDB infoU1 rfl

/-- C8 counterexample: a record with the known year 1950 matching today's
date is announced with the generic phrasing, not the age-aware phrasing the
claim promises for every known (non-zero) year. -/
theorem C8_known_year_generic_counterexample :
    bday1950.year ≠ 0
    ∧ SendBirthdayReminder env0 2026 3 15 dbBday
      = [⟨"people", none, birthdayGenericMessage bday1950⟩]
    ∧ birthdayGenericMessage bday1950 ≠ birthdayAgeMessage 2026 bday1950 := by
  refine ⟨by decide, rfl, by decide⟩

/-- C8 (amended): the daily sweep posts exactly one message to the people
channel per record matching today's month and day, with age-aware phrasing
exactly when the stored year exceeds 1970 and generic phrasing otherwise —
including known years up to 1970, which the validator accepts. -/
theorem C8_birthday_sweep (env : Env) (y m day : Int) (d : DB) :
    (SendBirthdayReminder env y m day d).length = (GetTodaysBirthdays d m day).length
    ∧ (∀ b ∈ d.birthdays, b.month = m → b.day = day →
        (⟨env.peopleChannel, none,
          if b.year > 1970 then birthdayAgeMessage y b else birthdayGenericMessage b⟩ : OutMsg)
          ∈ SendBirthdayReminder env y m day d)
    ∧ (∀ msg ∈ SendBirthdayReminder env y m day d,
        ∃ b ∈ GetTodaysBirthdays d m day,
          msg = ⟨env.peopleChannel, none, composeBirthdayMessage y b⟩) := by
  refine ⟨?_, ?_, ?_⟩
  · simp [SendBirthdayReminder]
  · intro b hb hm hd
    have hmem : b ∈ GetTodaysBirthdays d m day := by
      simp [GetTodaysBirthdays, List.mem_filter, hb, hm, hd]
    have : composeBirthdayMessage y b
        = if b.year > 1970 then birthdayAgeMessage y b else birthdayGenericMessage b := rfl
    rw [SendBirthdayReminder]
    exact List.mem_map.mpr ⟨b, hmem, by rw [this]⟩
  · intro msg hmsg
    rcases List.mem_map.mp hmsg with ⟨b, hb, hmsg⟩
    exact ⟨b, hb, hmsg.symm⟩

/-- C8 witness: the amended theorem at the 1950 fixture — the matching
record yields exactly one message, with the generic phrasing. -/
theorem C8_birthday_sweep_witness :
    (SendBirthdayReminder env0 2026 3 15 dbBday).length
      = (GetTodaysBirthdays dbBday 3 15).length
    ∧ (⟨env0.peopleChannel, none,
        if bday1950.year > 1970 then birthdayAgeMessage 2026 bday1950
        else birthdayGenericMessage bday1950⟩ : OutMsg)
      ∈ SendBirthdayReminder env0 2026 3 15 dbBday :=
  ⟨(C8_birthday_sweep env0 2026 3 15 dbBday).1,
    (C8_birthday_sweep env0 2026 3 15 dbBday).2.1 bday1950 (by decide) rfl rfl⟩

end Fambot
